import Mathlib

/-!
Verification development for the CollegeDunia scraping repository.

The repository consists of Python scripts that fetch paginated college
listings, parse table rows into eight-field records, deduplicate them by
college name, and persist the accumulated collection to an Excel file.

This file shallowly embeds the relevant functions:

* `parse_college_row` models the row parser shared by
  `collegedunia_scraper_ver3_28dec.py` and `collegedunia_scraper_ver4_28dec.py`
  (lines 86-143); `parse_college_row_v2` models the more elaborate parser of
  `scraping.py` (lines 98-218).  BeautifulSoup is an external library, so a
  table row is modelled by a structure holding exactly the selector results
  the source queries (each `select_one` result is an `Option`, carrying the
  extracted text when the tag is present).
* `scrape3` models `CollegeDuniaScraper.scrape_listing_page` of
  `collegedunia_scraper_ver3_28dec.py` / `scraping.py` (no deduplication);
  `scrape_listing_page` models the resumable variant of
  `collegedunia_scraper_ver4_28dec.py` (deduplication by name plus an
  incremental Excel checkpoint).
* `run3Aux` models the page loop of `CollegeDuniaScraper.run` in
  `collegedunia_scraper_ver3_28dec.py` / `scraping.py`;
  `run4Aux` models the unbounded loop of `collegedunia_scraper_ver4_28dec.py`;
  `stage1Aux` models the per-stream loop of `collegedunia_scraper_stage1.py`.
* `checkpointOps` models the file-system effect of the single
  `to_excel(EXCEL_FILE)` call on line 182 of
  `collegedunia_scraper_ver4_28dec.py`, with an explicit crash semantics.
-/

/-- One record of the fixed eight-column schema built by `parse_college_row`
(the Python dict with keys CD Rank, College Name, City, State, Course Fees,
Placement, User Reviews, Ranking; every value is a string). -/
structure CollegeRow where
  cdRank : String
  collegeName : String
  city : String
  state : String
  courseFees : String
  placement : String
  userReviews : String
  ranking : String
deriving DecidableEq, Repr

/-- The all-empty record that `parse_college_row` initialises `data` to and
returns unchanged when the row has fewer than two top-level cells. -/
def emptyRow : CollegeRow :=
  { cdRank := "", collegeName := "", city := "", state := "", courseFees := ""
    placement := "", userReviews := "", ranking := "" }

/-- Whitespace test used by the Python string methods modelled below. -/
def isWs (c : Char) : Bool := c.isWhitespace

/-- Python `str.strip()`: drop leading and trailing whitespace.  (Implemented
on the character list by structural recursion so that concrete instances
evaluate inside the kernel.) -/
def pyStrip (s : String) : String :=
  String.mk (((s.data.dropWhile isWs).reverse.dropWhile isWs).reverse)

/-- Helper for Python `str.split()` with no separator: accumulate the current
word (reversed) and emit maximal non-whitespace runs. -/
def wordsAux : List Char → List Char → List String
  | [], [] => []
  | [], cur => [String.mk cur.reverse]
  | c :: cs, cur =>
    if isWs c then
      (match cur with
       | [] => wordsAux cs []
       | _ => String.mk cur.reverse :: wordsAux cs [])
    else wordsAux cs (c :: cur)

/-- Python `" ".join(s.split())`: collapse whitespace runs to single spaces
and drop leading/trailing whitespace. -/
def normSpaces (s : String) : String :=
  String.intercalate " " (wordsAux s.data [])

/-- Helper for Python `str.split(",")`: split at every comma, keeping empty
pieces. -/
def splitCommaAux : List Char → List Char → List String
  | [], cur => [String.mk cur.reverse]
  | c :: cs, cur =>
    if c = ',' then String.mk cur.reverse :: splitCommaAux cs []
    else splitCommaAux cs (c :: cur)

/-- Python `s.split(",")`. -/
def pySplitComma (s : String) : List String := splitCommaAux s.data []

/-- A top-level `<td>` cell; `text` models `get_text(strip=True)`. -/
structure TdCell where
  text : String
deriving DecidableEq, Repr

/-- Selector results inside `td.col-fees` (ver3/ver4 parser):
`amount` is the text of `span.text-lg.text-green` when that tag exists,
`label` is the `title` attribute of `span[title]` when that tag exists. -/
structure FeesInfo where
  amount : Option String
  label : Option String
deriving DecidableEq, Repr

/-- A `<tr class="table-row">` as queried by the ver3/ver4 parser: the list of
top-level `td` cells plus the results of each CSS selector the code runs
(`none` models a selector that finds no tag; `some t` a tag with text `t`). -/
structure Tr where
  tds : List TdCell
  nameTag : Option String
  locSpan : Option String
  feesTd : Option FeesInfo
  placementTd : Option String
  reviewsTd : Option String
  rankingTd : Option String
deriving DecidableEq, Repr

/-- `parse_college_row` of `collegedunia_scraper_ver3_28dec.py` (lines 86-140)
and `collegedunia_scraper_ver4_28dec.py` (lines 89-143): build the eight-field
dict, returning it all-empty when the row has fewer than two top-level cells. -/
def parse_college_row (tr : Tr) : CollegeRow :=
  if tr.tds.length < 2 then emptyRow
  else
    { cdRank := (tr.tds.headD { text := "" }).text
      collegeName :=
        match tr.nameTag with
        | some t => normSpaces t
        | none => ""
      city :=
        (match tr.locSpan with
         | some t => ((pySplitComma t).map pyStrip).headD ""
         | none => "")
      state :=
        (match tr.locSpan with
         | some t => (((pySplitComma t).map pyStrip).drop 1).headD ""
         | none => "")
      courseFees :=
        match tr.feesTd with
        | none => ""
        | some f =>
          String.intercalate " "
            ((match f.amount with | some a => [a] | none => []) ++
             (match f.label with | some l => ["(" ++ l ++ ")"] | none => []))
      placement := tr.placementTd.getD ""
      userReviews := tr.reviewsTd.getD ""
      ranking := tr.rankingTd.getD "" }

/-- One `a.jsx-914129990` block inside `td.col-placement` (`scraping.py`). -/
structure PlacementBlock where
  value : Option String
  label : Option String
deriving DecidableEq, Repr

/-- Selector results inside `td.col-placement` (`scraping.py`). -/
structure PlacementTd where
  blocks : List PlacementBlock
  percentage : Option String
  score : Option String
deriving DecidableEq, Repr

/-- Selector results inside `td.col-reviews` (`scraping.py`). -/
structure ReviewsTd where
  rating : Option String
  count : Option String
  tagline : Option String
deriving DecidableEq, Repr

/-- Selector results inside `td.col-ranking` (`scraping.py`). -/
structure RankingTd where
  rankSpan : Option String
  rankContainer : Option String
deriving DecidableEq, Repr

/-- Selector results inside `td.col-fees` for `scraping.py`:
`labelTitle` is `span[title].get("title", "")` when the tag exists. -/
structure FeesTd2 where
  amount : Option String
  labelTitle : Option String
deriving DecidableEq, Repr

/-- A table row as queried by the `scraping.py` parser. -/
structure TrV2 where
  tds : List TdCell
  nameTag : Option String
  locSpan : Option String
  feesTd : Option FeesTd2
  placementTd : Option PlacementTd
  reviewsTd : Option ReviewsTd
  rankingTd : Option RankingTd
deriving DecidableEq, Repr

/-- `parse_college_row` of `scraping.py` (lines 98-218). -/
def parse_college_row_v2 (tr : TrV2) : CollegeRow :=
  if tr.tds.length < 2 then emptyRow
  else
    { cdRank := (tr.tds.headD { text := "" }).text
      collegeName :=
        match tr.nameTag with
        | some t => normSpaces t
        | none => ""
      city :=
        (match tr.locSpan with
         | some t => ((pySplitComma t).map pyStrip).headD ""
         | none => "")
      state :=
        (match tr.locSpan with
         | some t => (((pySplitComma t).map pyStrip).drop 1).headD ""
         | none => "")
      courseFees :=
        match tr.feesTd with
        | none => ""
        | some f =>
          let amount_text := f.amount.getD ""
          let label_text := pyStrip (f.labelTitle.getD "")
          pyStrip (String.intercalate " "
            ((if amount_text ≠ "" then [amount_text] else []) ++
             (if label_text ≠ "" then ["(" ++ label_text ++ ")"] else [])))
      placement :=
        pyStrip (String.intercalate " "
          (match tr.placementTd with
           | none => []
           | some p =>
             (p.blocks.foldl (fun acc b =>
                let v := b.value.getD ""
                let l := b.label.getD ""
                if v ≠ "" ∧ l ≠ "" then acc ++ [v ++ " " ++ l] else acc) []) ++
             (match p.percentage with | some t => [t] | none => []) ++
             (match p.score with | some t => [t] | none => [])))
      userReviews :=
        match tr.reviewsTd with
        | none => ""
        | some r =>
          let rating_text := r.rating.getD ""
          let count_text := r.count.getD ""
          let tagline_text := r.tagline.getD ""
          pyStrip (String.intercalate " "
            ((if rating_text ≠ "" then [rating_text] else []) ++
             (if count_text ≠ "" then [count_text] else []) ++
             (if tagline_text ≠ "" then [tagline_text] else [])))
      ranking :=
        match tr.rankingTd with
        | none => ""
        | some rk =>
          let container_text := rk.rankContainer.getD ""
          let rank_text := rk.rankSpan.getD ""
          if container_text ≠ "" then normSpaces container_text
          else if rank_text ≠ "" then normSpaces rank_text
          else "" }

/-- The listing table: its `tr.table-row` elements. -/
structure Table where
  rows : List Tr
deriving DecidableEq, Repr

/-- A fetched page as queried by `find_listing_table`:
`listingTable` is `soup.select_one("div.listing-block-container table")`,
`firstTable` is the `soup.find("table")` fallback. -/
structure Soup where
  listingTable : Option Table
  firstTable : Option Table
deriving DecidableEq, Repr

/-- `find_listing_table`: `table or soup.find("table")` (Python `or` on tags). -/
def find_listing_table (s : Soup) : Option Table :=
  match s.listingTable with
  | some t => some t
  | none => s.firstTable

/-- `find_college_rows`: `table.select("tr.table-row") if table else []`. -/
def find_college_rows (s : Soup) : List Tr :=
  match find_listing_table s with
  | some t => t.rows
  | none => []

/-- Outcome of `fetch_page` for one page: `failed` models the `None` return
(non-200 status or a `requests` exception), `ok` a parsed soup. -/
inductive PageOutcome
  | failed
  | ok (soup : Soup)
deriving DecidableEq, Repr

/-- `scrape_listing_page` of `collegedunia_scraper_ver3_28dec.py`
(lines 154-171) / `scraping.py` (lines 240-262): append every parsed row with
a non-empty College Name to `colleges_data`, returning the new list and the
page's count.  (No deduplication in these variants; the early `return 0` of
`scraping.py` on `not rows` coincides with folding over the empty list.) -/
def scrape3 (store : List CollegeRow) (o : PageOutcome) : List CollegeRow × Nat :=
  match o with
  | .failed => (store, 0)
  | .ok soup =>
    (find_college_rows soup).foldl
      (fun p tr =>
        let college := parse_college_row tr
        if college.collegeName ≠ "" then (p.1 ++ [college], p.2 + 1) else p)
      (store, 0)

/-- The inner candidate loop of `scrape_listing_page` in
`collegedunia_scraper_ver4_28dec.py` (lines 173-178): collect the parsed
candidates whose College Name is non-empty and not already present (by name)
in `store`.  The membership check runs against `self.colleges_data`, which is
not extended until after the loop, so the accumulator is not consulted. -/
def newRowsFor (store : List CollegeRow) (cands : List CollegeRow) : List CollegeRow :=
  cands.foldl
    (fun acc college =>
      if college.collegeName ≠ "" ∧
          ¬ (store.any (fun c => c.collegeName == college.collegeName)) = true
      then acc ++ [college] else acc)
    []

/-- The checkpoint path `EXCEL_FILE = "law_colleges.xlsx"` of
`collegedunia_scraper_ver4_28dec.py`. -/
def EXCEL_FILE : String := "law_colleges.xlsx"

/-- State of the ver4 scraper: the in-memory collection `colleges_data` and
the content of the durable Excel checkpoint (`none` when the file is absent). -/
structure ScrapeState where
  colleges_data : List CollegeRow
  excelFile : Option (List CollegeRow)
deriving DecidableEq, Repr

/-- `scrape_listing_page` of `collegedunia_scraper_ver4_28dec.py`
(lines 161-185), instrumented with the list of soups passed to
`find_college_rows` (the parser is reached only on a successful fetch; the
code returns 0 first when `fetch_page` yields `None`).  When at least one new
row is found, `colleges_data` is extended and the full collection is written
to the Excel checkpoint before returning. -/
def scrape_listing_pageT (st : ScrapeState) (f : PageOutcome) :
    ScrapeState × Nat × List Soup :=
  match f with
  | .failed => (st, 0, [])
  | .ok soup =>
    let new_rows := newRowsFor st.colleges_data
      ((find_college_rows soup).map parse_college_row)
    if new_rows = [] then (st, 0, [soup])
    else ({ colleges_data := st.colleges_data ++ new_rows,
            excelFile := some (st.colleges_data ++ new_rows) },
          new_rows.length, [soup])

/-- `scrape_listing_page` of ver4 without the parser-invocation log. -/
def scrape_listing_page (st : ScrapeState) (f : PageOutcome) : ScrapeState × Nat :=
  ((scrape_listing_pageT st f).1, (scrape_listing_pageT st f).2.1)

/-- The `merge` operation of the EntityStore: the ver4 candidate loop plus the
`colleges_data.extend(new_rows)` step, applied to an explicit candidate list.
Returns the new collection and the number of newly accepted candidates. -/
def merge (store : List CollegeRow) (cands : List CollegeRow) : List CollegeRow × Nat :=
  let new_rows := newRowsFor store cands
  (store ++ new_rows, new_rows.length)

/-- `CollegeDuniaScraper.__init__` of `collegedunia_scraper_ver4_28dec.py`
(lines 152-159): start from the empty collection, loading the records of the
Excel checkpoint when the file exists (`none` models a missing file). -/
def load (file : Option (List CollegeRow)) : ScrapeState :=
  match file with
  | none => { colleges_data := [], excelFile := none }
  | some rows => { colleges_data := rows, excelFile := some rows }

/-- Why a run of the ver3 / `scraping.py` page loop ended.  The loop exits in
one of three ways: the consecutive-empty break, the expected-total break, or
exhaustion of the `range(start_page, start_page + max_pages)` iterator.
`SOURCE_STRUCTURE_CHANGED` is the termination reason named by the spec for a
structural break on page 1; it is part of the vocabulary so that statements
about it are expressible. -/
inductive StopReason
  | EMPTY_STREAK
  | TARGET_REACHED
  | PAGE_LIMIT
  | SOURCE_STRUCTURE_CHANGED
deriving DecidableEq, Repr

/-- Loop state of `CollegeDuniaScraper.run` in
`collegedunia_scraper_ver3_28dec.py` (lines 173-199): the collection, the
session total `total_scraped`, and the consecutive-empty counter. -/
structure RunState where
  store : List CollegeRow
  total_scraped : Nat
  empty_pages : Nat
deriving DecidableEq, Repr

/-- The per-iteration state update of the ver3 run loop, given the page's
count and the collection returned by `scrape_listing_page`: a zero count
increments `empty_pages`, a positive count resets it to 0 and adds the count
to `total_scraped`. -/
def pageStep (st : RunState) (count : Nat) (store : List CollegeRow) : RunState :=
  if count = 0 then
    { st with store := store, empty_pages := st.empty_pages + 1 }
  else
    { store := store, total_scraped := st.total_scraped + count, empty_pages := 0 }

/-- Result of a ver3 run: final state, exit reason, and the per-page accepted
counts of the executed iterations in reverse order (most recent first). -/
structure Run3Result where
  state : RunState
  reason : StopReason
  rev : List Nat
deriving DecidableEq, Repr

/-- The page loop of `CollegeDuniaScraper.run` in
`collegedunia_scraper_ver3_28dec.py` (lines 182-196) / `scraping.py`
(lines 274-296): per page, scrape, update the counters, break with the
empty-streak message when `empty_pages >= 3` inside the zero-count branch,
then break when `total_scraped >= expected_total`; the fuel is the number of
remaining pages of the `range`. -/
def run3Aux (env : Nat → PageOutcome) (tgt : Nat) :
    Nat → Nat → RunState → List Nat → Run3Result
  | 0, _, st, acc => ⟨st, StopReason.PAGE_LIMIT, acc⟩
  | fuel + 1, page, st, acc =>
    let r := scrape3 st.store (env page)
    let st1 := pageStep st r.2 r.1
    if r.2 = 0 ∧ 3 ≤ st1.empty_pages then ⟨st1, StopReason.EMPTY_STREAK, r.2 :: acc⟩
    else if tgt ≤ st1.total_scraped then ⟨st1, StopReason.TARGET_REACHED, r.2 :: acc⟩
    else run3Aux env tgt fuel (page + 1) st1 (r.2 :: acc)

/-- Entry point of the ver3 run loop: `total_scraped = 0`, `empty_pages = 0`,
pages `start_page, start_page + 1, ...` for at most `max_pages` iterations. -/
def run3 (env : Nat → PageOutcome) (tgt start_page max_pages : Nat)
    (store0 : List CollegeRow) : Run3Result :=
  run3Aux env tgt max_pages start_page ⟨store0, 0, 0⟩ []

/-- Result of a ver4 run: final state, session total, the fetched page
indices in order, and whether the empty-streak exit occurred within fuel. -/
structure Run4Result where
  state : ScrapeState
  total_scraped : Nat
  pages : List Nat
  finished : Bool
deriving Repr

/-- `CollegeDuniaScraper.run` of `collegedunia_scraper_ver4_28dec.py`
(lines 187-208): `while True`, scrape the current page, increment the
consecutive-empty counter on a zero count (breaking at 3), otherwise reset it
and add to the total, then `page += 1`.  The loop has no page bound and no
target; `fuel` bounds the modelled unfolding, `finished = false` meaning the
loop was still running when fuel ran out. -/
def run4Aux (env : Nat → PageOutcome) :
    Nat → Nat → ScrapeState → Nat → Nat → Run4Result
  | 0, _, st, _, total => ⟨st, total, [], false⟩
  | fuel + 1, page, st, empty, total =>
    let r := scrape_listing_page st (env page)
    if r.2 = 0 then
      if 3 ≤ empty + 1 then ⟨r.1, total, [page], true⟩
      else
        let rest := run4Aux env fuel (page + 1) r.1 (empty + 1) total
        ⟨rest.state, rest.total_scraped, page :: rest.pages, rest.finished⟩
    else
      let rest := run4Aux env fuel (page + 1) r.1 0 (total + r.2)
      ⟨rest.state, rest.total_scraped, page :: rest.pages, rest.finished⟩

/-- One collected record of `collegedunia_scraper_stage1.py`. -/
structure Stage1Row where
  college_profile_url : String
  stream : String
  source_listing_url : String
deriving DecidableEq, Repr

/-- The per-page update of the stage1 stream loop
(`collect_college_urls`, lines 129-148): a failed fetch (`none`) increments
the consecutive-empty counter without extracting URLs; an extraction with no
URLs does the same; otherwise the counter resets and the rows are appended. -/
def stage1Update (stream base : String) (coll : List Stage1Row) (empty : Nat)
    (o : Option (List String)) : List Stage1Row × Nat :=
  match o with
  | none => (coll, empty + 1)
  | some urls =>
    if urls = [] then (coll, empty + 1)
    else
      (coll ++ urls.map (fun u =>
        { college_profile_url := u, stream := stream, source_listing_url := base }),
       0)

/-- The per-stream page loop of `collect_college_urls` in
`collegedunia_scraper_stage1.py` (lines 124-148): pages
`1, 2, ...` up to `MAX_PAGES_PER_STREAM`, breaking when the consecutive-empty
counter reaches 3.  Returns the collected rows, the fetched page indices in
order, and whether the break occurred. -/
def stage1Aux (env : Nat → Option (List String)) (stream base : String) :
    Nat → Nat → List Stage1Row → Nat → List Stage1Row × List Nat × Bool
  | 0, _, coll, _ => (coll, [], false)
  | fuel + 1, page, coll, empty =>
    let r := stage1Update stream base coll empty (env page)
    if 3 ≤ r.2 then (r.1, [page], true)
    else
      let rest := stage1Aux env stream base fuel (page + 1) r.1 r.2
      (rest.1, page :: rest.2.1, rest.2.2)

/-- Content of a file: absent, readable with the given rows, or corrupted by
an interrupted write. -/
inductive FsFile
  | missing
  | intact (rows : List CollegeRow)
  | corrupt
deriving DecidableEq, Repr

/-- A file system: path to file content. -/
def Fs : Type := String → FsFile

/-- A file-system operation: an in-place whole-file write, or an atomic
rename. -/
inductive FileOp
  | write (path : String) (rows : List CollegeRow)
  | rename (src dst : String)
deriving DecidableEq, Repr

/-- Effect of a completed file operation. -/
def applyOp (fs : Fs) : FileOp → Fs
  | .write p rows => fun q => if q = p then FsFile.intact rows else fs q
  | .rename s d => fun q => if q = d then fs s else if q = s then FsFile.missing else fs q

/-- File systems possibly observed if a crash interrupts the given operation:
a write caught mid-flight leaves its target corrupt; a rename is atomic. -/
def midOp (fs : Fs) : FileOp → List Fs
  | .write p _ => [fun q => if q = p then FsFile.corrupt else fs q]
  | .rename _ _ => []

/-- All file systems observable when a crash strikes at any point of an
operation sequence: before each operation, in the middle of a write, or after
completion (the final element). -/
def crashResults (fs : Fs) : List FileOp → List Fs
  | [] => [fs]
  | op :: rest => fs :: (midOp fs op ++ crashResults (applyOp fs op) rest)

/-- The file-system effect of `checkpoint` in
`collegedunia_scraper_ver4_28dec.py` (line 182): a single
`pd.DataFrame(colleges_data).to_excel(EXCEL_FILE)` call, i.e. one direct
in-place write of the full collection to the checkpoint path — no temporary
file and no rename. -/
def checkpointOps (store : List CollegeRow) : List FileOp :=
  [FileOp.write EXCEL_FILE store]

/-- Number of leading zeros of a list of per-page counts; applied to the
reversed count trace it is the length of the run's current empty streak. -/
def leadingZeros : List Nat → Nat
  | [] => 0
  | c :: r => if c = 0 then leadingZeros r + 1 else 0

/-- A minimal well-formed table row whose college-name selector finds a tag
with the given text: two top-level cells, all other selectors empty. -/
def mkTr (name : String) : Tr :=
  { tds := [{ text := "#1" }, { text := "" }], nameTag := some name,
    locSpan := none, feesTd := none, placementTd := none, reviewsTd := none,
    rankingTd := none }

/-- A page whose listing table holds one row per given name. -/
def soupOf (names : List String) : Soup :=
  { listingTable := some { rows := names.map mkTr }, firstTable := none }

/-- A structurally invalid page: neither the listing-container table nor any
fallback table exists, so `find_listing_table` returns `none`. -/
def soupInvalid : Soup :=
  { listingTable := none, firstTable := none }

/-- The record produced by parsing `mkTr name`. -/
def rowNamed (name : String) : CollegeRow := parse_college_row (mkTr name)

/-- Concrete records used in witnesses and counterexamples. -/
def rowA : CollegeRow := rowNamed "Alpha"

/-- Second concrete record. -/
def rowB : CollegeRow := rowNamed "Beta"

/-- Third concrete record. -/
def rowC : CollegeRow := rowNamed "Gamma"

/-- A concrete page environment: page 2 carries one college, every other page
is structurally invalid. -/
def envC2 : Nat → PageOutcome := fun p =>
  if p = 2 then PageOutcome.ok (soupOf ["Alpha"]) else PageOutcome.ok soupInvalid

/-- A concrete page environment yielding three fresh colleges per page. -/
def envTarget : Nat → PageOutcome := fun p =>
  if p = 1 then PageOutcome.ok (soupOf ["A1", "A2", "A3"])
  else PageOutcome.ok (soupOf ["B1", "B2", "B3"])

/-- A file system whose checkpoint file holds one record and nothing else. -/
def fsPrior : Fs := fun q => if q = EXCEL_FILE then FsFile.intact [rowA] else FsFile.missing

/-- A row with a single top-level cell (fewer than two cells). -/
def trOneCell : Tr :=
  { tds := [{ text := "#7" }], nameTag := some "Ignored",
    locSpan := some "City, State", feesTd := none, placementTd := none,
    reviewsTd := none, rankingTd := none }

/-- A `scraping.py` row with a single top-level cell. -/
def trOneCellV2 : TrV2 :=
  { tds := [{ text := "#7" }], nameTag := some "Ignored",
    locSpan := some "City, State", feesTd := none, placementTd := none,
    reviewsTd := none, rankingTd := none }

/-- The acceptance test of the ver4 candidate loop, as a predicate. -/
def acceptsInto (store : List CollegeRow) (college : CollegeRow) : Prop :=
  college.collegeName ≠ "" ∧
    ¬ (store.any (fun c => c.collegeName == college.collegeName)) = true

instance (store : List CollegeRow) : DecidablePred (acceptsInto store) := by
  intro college
  unfold acceptsInto
  infer_instance

theorem newRowsFor_aux (store : List CollegeRow) (cands : List CollegeRow) :
    ∀ acc : List CollegeRow,
      cands.foldl
        (fun acc college =>
          if college.collegeName ≠ "" ∧
              ¬ (store.any (fun c => c.collegeName == college.collegeName)) = true
          then acc ++ [college] else acc)
        acc
      = acc ++ cands.filter (fun college => decide (acceptsInto store college)) := by
  induction cands with
  | nil => intro acc; simp
  | cons c cs ih =>
    intro acc
    simp only [List.foldl_cons, List.filter_cons]
    by_cases h : acceptsInto store c
    · have h' := h
      unfold acceptsInto at h'
      rw [if_pos h']
      rw [ih]
      simp [h, List.append_assoc]
    · have h' := h
      unfold acceptsInto at h'
      rw [if_neg h']
      rw [ih]
      simp [h]

/-- The ver4 candidate loop is a filter on the acceptance test. -/
theorem newRowsFor_eq_filter (store cands : List CollegeRow) :
    newRowsFor store cands
      = cands.filter (fun college => decide (acceptsInto store college)) := by
  unfold newRowsFor
  simpa using newRowsFor_aux store cands []

theorem scrape3_aux (rows : List Tr) :
    ∀ (store : List CollegeRow) (n : Nat),
      rows.foldl
        (fun p tr =>
          let college := parse_college_row tr
          if college.collegeName ≠ "" then (p.1 ++ [college], p.2 + 1) else p)
        (store, n)
      = (store ++ (rows.map parse_college_row).filter
            (fun c => decide (c.collegeName ≠ "")),
         n + ((rows.map parse_college_row).filter
            (fun c => decide (c.collegeName ≠ ""))).length) := by
  induction rows with
  | nil => intro store n; simp
  | cons tr trs ih =>
    intro store n
    simp only [List.foldl_cons, List.map_cons, List.filter_cons]
    by_cases h : (parse_college_row tr).collegeName ≠ ""
    · rw [if_pos h]
      rw [ih]
      simp [h, List.append_assoc]
      omega
    · rw [if_neg h]
      rw [ih]
      simp [h]

/-- `scrape3` on a successful fetch appends exactly the parsed rows with a
non-empty name and returns their number. -/
theorem scrape3_ok (store : List CollegeRow) (soup : Soup) :
    scrape3 store (PageOutcome.ok soup)
      = (store ++ ((find_college_rows soup).map parse_college_row).filter
            (fun c => decide (c.collegeName ≠ "")),
         (((find_college_rows soup).map parse_college_row).filter
            (fun c => decide (c.collegeName ≠ ""))).length) := by
  show List.foldl _ _ _ = _
  rw [scrape3_aux]
  simp

/-- The collection grows by exactly the page's count. -/
theorem scrape3_length (store : List CollegeRow) (o : PageOutcome) :
    (scrape3 store o).1.length = store.length + (scrape3 store o).2 := by
  cases o with
  | failed => simp [scrape3]
  | ok soup => rw [scrape3_ok]; simp

/-- A page whose fetch failed or whose rows accept nothing leaves the
collection unchanged. -/
theorem scrape3_count_zero (store : List CollegeRow) (o : PageOutcome)
    (h : (scrape3 store o).2 = 0) : (scrape3 store o).1 = store := by
  cases o with
  | failed => simp [scrape3]
  | ok soup =>
    rw [scrape3_ok] at h ⊢
    rw [List.length_eq_zero] at h
    rw [h]
    simp

/-- A failed fetch returns immediately: no state change, count 0, and the
parser (`find_college_rows`) is never reached. -/
theorem scrape_listing_pageT_failed (st : ScrapeState) :
    scrape_listing_pageT st PageOutcome.failed = (st, 0, []) := rfl

/-- A structurally invalid page (no listing table at all) behaves exactly like
an empty page: no state change and count 0 (the parser runs and finds no
rows). -/
theorem scrape_listing_pageT_invalid (st : ScrapeState) (soup : Soup)
    (h : find_listing_table soup = none) :
    scrape_listing_pageT st (PageOutcome.ok soup) = (st, 0, [soup]) := by
  have hrows : find_college_rows soup = [] := by
    unfold find_college_rows
    rw [h]
  simp only [scrape_listing_pageT, hrows]
  simp [newRowsFor]

/-- A page iteration with count 0 leaves the whole state (collection and
checkpoint) unchanged. -/
theorem scrape_listing_page_count_zero (st : ScrapeState) (f : PageOutcome)
    (h : (scrape_listing_page st f).2 = 0) : (scrape_listing_page st f).1 = st := by
  cases f with
  | failed => rfl
  | ok soup =>
    simp only [scrape_listing_page, scrape_listing_pageT] at h ⊢
    by_cases hnr : newRowsFor st.colleges_data
        ((find_college_rows soup).map parse_college_row) = []
    · simp [hnr]
    · simp only [if_neg hnr] at h
      exact absurd (List.length_eq_zero.mp h) hnr

/-- A page iteration that accepts at least one new entity writes the full
current collection to the checkpoint before returning. -/
theorem scrape_listing_page_pos (st : ScrapeState) (f : PageOutcome)
    (h : 0 < (scrape_listing_page st f).2) :
    (scrape_listing_page st f).1.excelFile
      = some (scrape_listing_page st f).1.colleges_data := by
  cases f with
  | failed => simp [scrape_listing_page, scrape_listing_pageT] at h
  | ok soup =>
    simp only [scrape_listing_page, scrape_listing_pageT] at h ⊢
    by_cases hnr : newRowsFor st.colleges_data
        ((find_college_rows soup).map parse_college_row) = []
    · simp [hnr] at h
    · simp [hnr]

/-- After a merge, the name of every candidate with a non-empty name is
present in the collection (it either was present or has just been inserted). -/
theorem merge_name_present (store cands : List CollegeRow) (c : CollegeRow)
    (hm : c ∈ cands) (hn : c.collegeName ≠ "") :
    ((merge store cands).1.any (fun x => x.collegeName == c.collegeName)) = true := by
  unfold merge
  rw [newRowsFor_eq_filter]
  rw [List.any_append]
  by_cases hs : (store.any (fun x => x.collegeName == c.collegeName)) = true
  · rw [hs]; rfl
  · have hp : acceptsInto store c := ⟨hn, hs⟩
    have hcf : c ∈ cands.filter (fun college => decide (acceptsInto store college)) := by
      rw [List.mem_filter]
      exact ⟨hm, by simpa using hp⟩
    have : ((cands.filter (fun college => decide (acceptsInto store college))).any
        (fun x => x.collegeName == c.collegeName)) = true := by
      rw [List.any_eq_true]
      exact ⟨c, hcf, by simp⟩
    rw [this]
    simp

/-- Merging a candidate list into a store that already contains every
candidate name (or whose candidates have empty names) accepts nothing. -/
theorem merge_all_present (store cands : List CollegeRow)
    (h : ∀ c ∈ cands, c.collegeName ≠ "" →
      (store.any (fun x => x.collegeName == c.collegeName)) = true) :
    merge store cands = (store, 0) := by
  unfold merge
  rw [newRowsFor_eq_filter]
  have hnil : cands.filter (fun college => decide (acceptsInto store college)) = [] := by
    rw [List.filter_eq_nil_iff]
    intro c hc
    simp only [decide_eq_true_eq]
    intro hp
    exact hp.2 (h c hc hp.1)
  rw [hnil]
  simp

/-- Merging is idempotent at the level of whole candidate lists. -/
theorem merge_merge (store cands : List CollegeRow) :
    merge (merge store cands).1 cands = ((merge store cands).1, 0) := by
  apply merge_all_present
  intro c hc hn
  exact merge_name_present store cands c hc hn

theorem leadingZeros_cons_zero (r : List Nat) :
    leadingZeros (0 :: r) = leadingZeros r + 1 := by
  simp [leadingZeros]

theorem leadingZeros_cons_pos (c : Nat) (r : List Nat) (h : c ≠ 0) :
    leadingZeros (c :: r) = 0 := by
  simp [leadingZeros, h]

/-- A count trace with at least three leading zeros starts with three zeros. -/
theorem leadingZeros_three (l : List Nat) (h : 3 ≤ leadingZeros l) :
    ∃ r, l = 0 :: 0 :: 0 :: r := by
  match l with
  | [] => simp [leadingZeros] at h
  | c1 :: l1 =>
    by_cases h1 : c1 = 0
    · subst h1
      rw [leadingZeros_cons_zero] at h
      match l1 with
      | [] => simp [leadingZeros] at h
      | c2 :: l2 =>
        by_cases h2 : c2 = 0
        · subst h2
          rw [leadingZeros_cons_zero] at h
          match l2 with
          | [] => simp [leadingZeros] at h
          | c3 :: l3 =>
            by_cases h3 : c3 = 0
            · subst h3
              exact ⟨l3, rfl⟩
            · rw [leadingZeros_cons_pos c3 l3 h3] at h
              omega
        · rw [leadingZeros_cons_pos c2 l2 h2] at h
          omega
    · rw [leadingZeros_cons_pos c1 l1 h1] at h
      omega

theorem run3Aux_succ (env : Nat → PageOutcome) (tgt fuel page : Nat)
    (st : RunState) (acc : List Nat) :
    run3Aux env tgt (fuel + 1) page st acc =
      (let r := scrape3 st.store (env page)
       let st1 := pageStep st r.2 r.1
       if r.2 = 0 ∧ 3 ≤ st1.empty_pages then ⟨st1, StopReason.EMPTY_STREAK, r.2 :: acc⟩
       else if tgt ≤ st1.total_scraped then ⟨st1, StopReason.TARGET_REACHED, r.2 :: acc⟩
       else run3Aux env tgt fuel (page + 1) st1 (r.2 :: acc)) := rfl

theorem pageStep_zero (st : RunState) (store : List CollegeRow) :
    pageStep st 0 store
      = { st with store := store, empty_pages := st.empty_pages + 1 } := by
  simp [pageStep]

theorem pageStep_pos (st : RunState) (count : Nat) (store : List CollegeRow)
    (h : count ≠ 0) :
    pageStep st count store
      = { store := store, total_scraped := st.total_scraped + count,
          empty_pages := 0 } := by
  simp [pageStep, h]

theorem pageStep_store (st : RunState) (cnt : Nat) (s : List CollegeRow) :
    (pageStep st cnt s).store = s := by
  unfold pageStep
  split <;> rfl

theorem pageStep_total_zero (st : RunState) (s : List CollegeRow) :
    (pageStep st 0 s).total_scraped = st.total_scraped := by
  simp [pageStep]

theorem pageStep_empty_zero (st : RunState) (s : List CollegeRow) :
    (pageStep st 0 s).empty_pages = st.empty_pages + 1 := by
  simp [pageStep]

theorem pageStep_total_pos (st : RunState) (cnt : Nat) (s : List CollegeRow)
    (h : cnt ≠ 0) :
    (pageStep st cnt s).total_scraped = st.total_scraped + cnt := by
  simp [pageStep, h]

theorem pageStep_empty_pos (st : RunState) (cnt : Nat) (s : List CollegeRow)
    (h : cnt ≠ 0) : (pageStep st cnt s).empty_pages = 0 := by
  simp [pageStep, h]

theorem run3Aux_succ2 (env : Nat → PageOutcome) (tgt fuel page : Nat)
    (st : RunState) (acc : List Nat) (s1 : List CollegeRow) (cnt : Nat)
    (hr : scrape3 st.store (env page) = (s1, cnt)) :
    run3Aux env tgt (fuel + 1) page st acc =
      (if cnt = 0 ∧ 3 ≤ (pageStep st cnt s1).empty_pages
       then ⟨pageStep st cnt s1, StopReason.EMPTY_STREAK, cnt :: acc⟩
       else if tgt ≤ (pageStep st cnt s1).total_scraped
       then ⟨pageStep st cnt s1, StopReason.TARGET_REACHED, cnt :: acc⟩
       else run3Aux env tgt fuel (page + 1) (pageStep st cnt s1) (cnt :: acc)) := by
  rw [run3Aux_succ, hr]

/-- Master characterisation of the ver3 / `scraping.py` run loop.  Relative to
the invariants satisfied at loop entry, the final session total is the sum of
the per-page counts, the collection grows by exactly that sum, the loop exits
via the empty-streak break exactly when the last three executed iterations
each contributed zero, and it exits via the expected-total break exactly when
the final iteration first brought the running total to the target. -/
theorem run3Aux_char (env : Nat → PageOutcome) (tgt : Nat) :
    ∀ (fuel page : Nat) (st : RunState) (acc : List Nat) (base : Nat),
      st.empty_pages = leadingZeros acc →
      st.empty_pages < 3 →
      st.total_scraped = acc.sum →
      (acc = [] ∨ st.total_scraped < tgt) →
      st.store.length = base + st.total_scraped →
      ((run3Aux env tgt fuel page st acc).state.total_scraped
          = (run3Aux env tgt fuel page st acc).rev.sum) ∧
      ((run3Aux env tgt fuel page st acc).state.store.length
          = base + (run3Aux env tgt fuel page st acc).rev.sum) ∧
      ((run3Aux env tgt fuel page st acc).reason = StopReason.EMPTY_STREAK
          ↔ 3 ≤ leadingZeros (run3Aux env tgt fuel page st acc).rev) ∧
      ((run3Aux env tgt fuel page st acc).reason = StopReason.TARGET_REACHED
          ↔ ∃ c r, (run3Aux env tgt fuel page st acc).rev = c :: r ∧
              tgt ≤ c + r.sum ∧ (r = [] ∨ r.sum < tgt)) := by
  intro fuel
  induction fuel with
  | zero =>
    intro page st acc base h1 h2 h3 h4 h5
    simp only [run3Aux]
    refine ⟨h3, by omega, ?_, ?_⟩
    · constructor
      · intro h; exact absurd h (by simp)
      · intro h; exfalso; omega
    · constructor
      · intro h; exact absurd h (by simp)
      · rintro ⟨c, r, hacc, hle, hor⟩
        exfalso
        rcases h4 with h4 | h4
        · rw [h4] at hacc; exact List.noConfusion hacc
        · rw [hacc, List.sum_cons] at h3
          omega
  | succ fuel ih =>
    intro page st acc base h1 h2 h3 h4 h5
    rcases hr : scrape3 st.store (env page) with ⟨s1, cnt⟩
    have hlen : s1.length = st.store.length + cnt := by
      have h := scrape3_length st.store (env page)
      rw [hr] at h
      exact h
    rw [run3Aux_succ2 env tgt fuel page st acc s1 cnt hr]
    by_cases hc : cnt = 0
    · subst hc
      rw [pageStep_empty_zero, pageStep_total_zero]
      by_cases hstop : 3 ≤ st.empty_pages + 1
      · rw [if_pos ⟨rfl, hstop⟩]
        refine ⟨?_, ?_, ?_, ?_⟩
        · simp only [pageStep_total_zero, List.sum_cons]
          omega
        · simp only [pageStep_store, List.sum_cons]
          omega
        · simp only [leadingZeros_cons_zero]
          constructor
          · intro _; omega
          · intro _; trivial
        · constructor
          · intro h; exact absurd h (by simp)
          · rintro ⟨c, r, hacc, hle, hor⟩
            exfalso
            injection hacc with hc1 hc2
            subst hc1
            subst hc2
            rcases hor with hor | hor
            · rw [hor] at h1
              simp [leadingZeros] at h1
              omega
            · omega
      · rw [if_neg (by intro hand; exact hstop hand.2)]
        by_cases htgt : tgt ≤ st.total_scraped
        · rw [if_pos htgt]
          refine ⟨?_, ?_, ?_, ?_⟩
          · simp only [pageStep_total_zero, List.sum_cons]
            omega
          · simp only [pageStep_store, List.sum_cons]
            omega
          · simp only [leadingZeros_cons_zero]
            constructor
            · intro h; exact absurd h (by simp)
            · intro h; exfalso; omega
          · constructor
            · intro _
              refine ⟨0, acc, rfl, by omega, ?_⟩
              rcases h4 with h4 | h4
              · exact Or.inl h4
              · exact absurd htgt (by omega)
            · intro _; trivial
        · rw [if_neg htgt]
          have h1' : (pageStep st 0 s1).empty_pages = leadingZeros (0 :: acc) := by
            rw [pageStep_empty_zero, leadingZeros_cons_zero, h1]
          have h2' : (pageStep st 0 s1).empty_pages < 3 := by
            rw [pageStep_empty_zero]; omega
          have h3' : (pageStep st 0 s1).total_scraped = (0 :: acc).sum := by
            rw [pageStep_total_zero, List.sum_cons]; omega
          have h4' : (0 :: acc) = [] ∨ (pageStep st 0 s1).total_scraped < tgt := by
            right; rw [pageStep_total_zero]; omega
          have h5' : (pageStep st 0 s1).store.length
              = base + (pageStep st 0 s1).total_scraped := by
            rw [pageStep_store, pageStep_total_zero]; omega
          exact ih (page + 1) (pageStep st 0 s1) (0 :: acc) base h1' h2' h3' h4' h5'
    · rw [if_neg (by intro hand; exact hc hand.1)]
      rw [pageStep_total_pos st cnt s1 hc]
      by_cases htgt : tgt ≤ st.total_scraped + cnt
      · rw [if_pos htgt]
        refine ⟨?_, ?_, ?_, ?_⟩
        · simp only [pageStep_total_pos st cnt s1 hc, List.sum_cons]
          omega
        · simp only [pageStep_store, List.sum_cons]
          omega
        · rw [leadingZeros_cons_pos cnt acc hc]
          constructor
          · intro h; exact absurd h (by simp)
          · intro h; exfalso; omega
        · constructor
          · intro _
            refine ⟨cnt, acc, rfl, by omega, ?_⟩
            rcases h4 with h4 | h4
            · exact Or.inl h4
            · right; omega
          · intro _; trivial
      · rw [if_neg htgt]
        have h1' : (pageStep st cnt s1).empty_pages = leadingZeros (cnt :: acc) := by
          rw [pageStep_empty_pos st cnt s1 hc, leadingZeros_cons_pos cnt acc hc]
        have h2' : (pageStep st cnt s1).empty_pages < 3 := by
          rw [pageStep_empty_pos st cnt s1 hc]; omega
        have h3' : (pageStep st cnt s1).total_scraped = (cnt :: acc).sum := by
          rw [pageStep_total_pos st cnt s1 hc, List.sum_cons]; omega
        have h4' : (cnt :: acc) = [] ∨ (pageStep st cnt s1).total_scraped < tgt := by
          right; rw [pageStep_total_pos st cnt s1 hc]; omega
        have h5' : (pageStep st cnt s1).store.length
            = base + (pageStep st cnt s1).total_scraped := by
          rw [pageStep_store, pageStep_total_pos st cnt s1 hc]; omega
        exact ih (page + 1) (pageStep st cnt s1) (cnt :: acc) base h1' h2' h3' h4' h5'

/-- Every accepted candidate has a non-empty College Name: the ver4 loop
filters on `college["College Name"]` before the duplicate check. -/
theorem mem_newRowsFor_name (store cands : List CollegeRow) (r : CollegeRow)
    (h : r ∈ newRowsFor store cands) : r.collegeName ≠ "" := by
  rw [newRowsFor_eq_filter] at h
  have hp := (List.mem_filter.mp h).2
  simp only [decide_eq_true_eq] at hp
  exact hp.1

/-- The ver4 page step preserves "every stored record has a non-empty name". -/
theorem scrape_listing_page_names (st : ScrapeState) (f : PageOutcome)
    (h : ∀ x ∈ st.colleges_data, x.collegeName ≠ "") :
    ∀ x ∈ (scrape_listing_page st f).1.colleges_data, x.collegeName ≠ "" := by
  cases f with
  | failed => exact h
  | ok soup =>
    simp only [scrape_listing_page, scrape_listing_pageT]
    by_cases hnr : newRowsFor st.colleges_data
        ((find_college_rows soup).map parse_college_row) = []
    · simp only [if_pos hnr]
      exact h
    · simp only [if_neg hnr]
      intro x hx
      rcases List.mem_append.mp hx with hx | hx
      · exact h x hx
      · exact mem_newRowsFor_name _ _ x hx

/-- Any property of the scraper state preserved by a single page iteration
holds in the final state of the ver4 run loop. -/
theorem run4Aux_inv (env : Nat → PageOutcome) (P : ScrapeState → Prop)
    (hP : ∀ st f, P st → P (scrape_listing_page st f).1) :
    ∀ (fuel page : Nat) (st : ScrapeState) (empty total : Nat),
      P st → P (run4Aux env fuel page st empty total).state := by
  intro fuel
  induction fuel with
  | zero => intro page st empty total h; exact h
  | succ fuel ih =>
    intro page st empty total h
    simp only [run4Aux]
    by_cases hc : (scrape_listing_page st (env page)).2 = 0
    · rw [if_pos hc]
      by_cases hs : 3 ≤ empty + 1
      · rw [if_pos hs]
        exact hP st (env page) h
      · rw [if_neg hs]
        exact ih (page + 1) _ (empty + 1) total (hP st (env page) h)
    · rw [if_neg hc]
      exact ih (page + 1) _ 0 _ (hP st (env page) h)

/-- The pages fetched by the ver4 run loop form a contiguous ascending range
starting at the first page. -/
theorem run4Aux_pages (env : Nat → PageOutcome) :
    ∀ (fuel page : Nat) (st : ScrapeState) (empty total : Nat),
      ∃ n, (run4Aux env fuel page st empty total).pages = List.range' page n := by
  intro fuel
  induction fuel with
  | zero => intro page st empty total; exact ⟨0, rfl⟩
  | succ fuel ih =>
    intro page st empty total
    simp only [run4Aux]
    by_cases hc : (scrape_listing_page st (env page)).2 = 0
    · rw [if_pos hc]
      by_cases hs : 3 ≤ empty + 1
      · rw [if_pos hs]
        exact ⟨1, rfl⟩
      · rw [if_neg hs]
        obtain ⟨n, hn⟩ := ih (page + 1) _ (empty + 1) total
        exact ⟨n + 1, by rw [show (List.range' page (n + 1))
          = page :: List.range' (page + 1) n from rfl, ← hn]⟩
    · rw [if_neg hc]
      obtain ⟨n, hn⟩ := ih (page + 1) _ 0 _
      exact ⟨n + 1, by rw [show (List.range' page (n + 1))
        = page :: List.range' (page + 1) n from rfl, ← hn]⟩

/-- The pages visited by a stage1 stream loop form a contiguous ascending
range. -/
theorem stage1Aux_pages (env : Nat → Option (List String)) (stream base : String) :
    ∀ (fuel page : Nat) (coll : List Stage1Row) (empty : Nat),
      ∃ n, (stage1Aux env stream base fuel page coll empty).2.1
        = List.range' page n := by
  intro fuel
  induction fuel with
  | zero => intro page coll empty; exact ⟨0, rfl⟩
  | succ fuel ih =>
    intro page coll empty
    simp only [stage1Aux]
    by_cases hs : 3 ≤ (stage1Update stream base coll empty (env page)).2
    · rw [if_pos hs]
      exact ⟨1, rfl⟩
    · rw [if_neg hs]
      obtain ⟨n, hn⟩ := ih (page + 1) _ _
      exact ⟨n + 1, by rw [show (List.range' page (n + 1))
        = page :: List.range' (page + 1) n from rfl, ← hn]⟩

/-- Successive elements of a contiguous range differ by exactly one. -/
theorem range'_chain (n : Nat) :
    ∀ s, List.Chain' (fun a b => b = a + 1) (List.range' s n) := by
  induction n with
  | zero => intro s; simp [List.range']
  | succ m ih =>
    intro s
    show List.Chain' _ (s :: List.range' (s + 1) m)
    rw [List.chain'_cons']
    refine ⟨?_, ih (s + 1)⟩
    intro y hy
    cases m with
    | zero => simp [List.range'] at hy
    | succ k =>
      have hh : (List.range' (s + 1) (k + 1)).head? = some (s + 1) := rfl
      rw [hh] at hy
      simp at hy
      exact hy.symm

theorem mem_range'_le (n : Nat) :
    ∀ s a, a ∈ List.range' s n → s ≤ a := by
  induction n with
  | zero => intro s a h; simp [List.range'] at h
  | succ m ih =>
    intro s a h
    rw [show List.range' s (m + 1) = s :: List.range' (s + 1) m from rfl] at h
    rcases List.mem_cons.mp h with h | h
    · omega
    · have := ih (s + 1) a h
      omega

/-- A contiguous range is strictly increasing. -/
theorem range'_pairwise (n : Nat) :
    ∀ s, List.Pairwise (· < ·) (List.range' s n) := by
  induction n with
  | zero => intro s; simp [List.range']
  | succ m ih =>
    intro s
    rw [show List.range' s (m + 1) = s :: List.range' (s + 1) m from rfl]
    refine List.Pairwise.cons ?_ (ih (s + 1))
    intro b hb
    have := mem_range'_le m (s + 1) b hb
    omega

/-- The ver3 run loop exits only through its three breaks; no exit is the
spec's `SOURCE_STRUCTURE_CHANGED`. -/
theorem run3Aux_reason_ne (env : Nat → PageOutcome) (tgt : Nat) :
    ∀ (fuel page : Nat) (st : RunState) (acc : List Nat),
      (run3Aux env tgt fuel page st acc).reason
        ≠ StopReason.SOURCE_STRUCTURE_CHANGED := by
  intro fuel
  induction fuel with
  | zero => intro page st acc h; exact absurd h (by simp [run3Aux])
  | succ fuel ih =>
    intro page st acc
    rcases hr : scrape3 st.store (env page) with ⟨s1, cnt⟩
    rw [run3Aux_succ2 env tgt fuel page st acc s1 cnt hr]
    by_cases h1 : cnt = 0 ∧ 3 ≤ (pageStep st cnt s1).empty_pages
    · rw [if_pos h1]; simp
    · rw [if_neg h1]
      by_cases h2 : tgt ≤ (pageStep st cnt s1).total_scraped
      · rw [if_pos h2]; simp
      · rw [if_neg h2]
        exact ih (page + 1) (pageStep st cnt s1) (cnt :: acc)

/-- The per-page step preserves the checkpoint-matches-collection invariant. -/
theorem scrape_listing_page_checkpoint_inv (st : ScrapeState) (f : PageOutcome)
    (h : st.excelFile.getD [] = st.colleges_data) :
    (scrape_listing_page st f).1.excelFile.getD []
      = (scrape_listing_page st f).1.colleges_data := by
  by_cases hc : (scrape_listing_page st f).2 = 0
  · rw [scrape_listing_page_count_zero st f hc]
    exact h
  · rw [scrape_listing_page_pos st f (Nat.pos_of_ne_zero hc)]
    rfl

/-- The ver3 page step preserves non-emptiness of all stored names. -/
theorem scrape3_names (store : List CollegeRow) (o : PageOutcome)
    (h : ∀ x ∈ store, x.collegeName ≠ "") :
    ∀ x ∈ (scrape3 store o).1, x.collegeName ≠ "" := by
  cases o with
  | failed => exact h
  | ok soup =>
    rw [scrape3_ok]
    intro x hx
    rcases List.mem_append.mp hx with hx | hx
    · exact h x hx
    · have hp := (List.mem_filter.mp hx).2
      simpa using hp

/-- C1: a run of the ver3 / `scraping.py` collection loop terminates via the
empty-streak break exactly when the last three executed page iterations each
contributed zero accepted entities (whether the fetch failed or the page
parsed with no accepted candidates — both yield count 0), never earlier than
the third consecutive such page; a page contributing at least one entity
resets the consecutive-empty counter to zero, and an empty page increments
it. -/
theorem c1_empty_streak_termination (env : Nat → PageOutcome)
    (tgt start_page max_pages : Nat) (store0 : List CollegeRow) :
    ((run3 env tgt start_page max_pages store0).reason = StopReason.EMPTY_STREAK
      ↔ 3 ≤ leadingZeros (run3 env tgt start_page max_pages store0).rev) ∧
    ((run3 env tgt start_page max_pages store0).reason = StopReason.EMPTY_STREAK
      → ∃ r, (run3 env tgt start_page max_pages store0).rev = 0 :: 0 :: 0 :: r) ∧
    (∀ (st : RunState) (c : Nat) (s : List CollegeRow), c ≠ 0 →
      (pageStep st c s).empty_pages = 0) ∧
    (∀ (st : RunState) (s : List CollegeRow),
      (pageStep st 0 s).empty_pages = st.empty_pages + 1) := by
  have h := run3Aux_char env tgt max_pages start_page ⟨store0, 0, 0⟩ [] store0.length
    rfl (show (0 : Nat) < 3 by omega) rfl (Or.inl rfl) rfl
  refine ⟨h.2.2.1, ?_, ?_, ?_⟩
  · intro hr
    exact leadingZeros_three _ (h.2.2.1.mp hr)
  · intro st c s hc
    exact pageStep_empty_pos st c s hc
  · intro st s
    exact pageStep_empty_zero st s

theorem c1_witness :
    ((run3 envC2 3000 1 10 []).reason = StopReason.EMPTY_STREAK
      ↔ 3 ≤ leadingZeros (run3 envC2 3000 1 10 []).rev) ∧
    (∃ r, (run3 envC2 3000 1 10 []).rev = 0 :: 0 :: 0 :: r) ∧
    (pageStep ⟨[], 0, 2⟩ 5 [rowA]).empty_pages = 0 :=
  ⟨(c1_empty_streak_termination envC2 3000 1 10 []).1,
   (c1_empty_streak_termination envC2 3000 1 10 []).2.1 (by decide),
   (c1_empty_streak_termination envC2 3000 1 10 []).2.2.1 ⟨[], 0, 2⟩ 5 [rowA]
     (by decide)⟩

/-- C2 counterexample: in a concrete run whose page 1 is structurally invalid
(no listing table at all), the loop does not stop there and does not report
`SOURCE_STRUCTURE_CHANGED`; it continues, accepts an entity on page 2, and
finally stops via the empty-streak break with one stored entity — refuting
both the immediate stop and the zero-entities-written consequence. -/
theorem c2_counterexample :
    find_listing_table soupInvalid = none ∧
    envC2 1 = PageOutcome.ok soupInvalid ∧
    (run3 envC2 3000 1 10 []).reason ≠ StopReason.SOURCE_STRUCTURE_CHANGED ∧
    (run3 envC2 3000 1 10 []).reason = StopReason.EMPTY_STREAK ∧
    (run3 envC2 3000 1 10 []).state.store.length = 1 := by
  decide

/-- C2 amended: structural invalidity (no listing container found at all) is
treated as an empty page on every page, page 1 included: it contributes count
0 to the empty-streak counter and changes no state, and no run of the loop
ever terminates with reason `SOURCE_STRUCTURE_CHANGED` (the code has no such
exit). -/
theorem c2_structural_invalidity_is_empty_page :
    (∀ (store : List CollegeRow) (soup : Soup), find_listing_table soup = none →
      scrape3 store (PageOutcome.ok soup) = (store, 0)) ∧
    (∀ (st : ScrapeState) (soup : Soup), find_listing_table soup = none →
      scrape_listing_pageT st (PageOutcome.ok soup) = (st, 0, [soup])) ∧
    (∀ (env : Nat → PageOutcome) (tgt fuel page : Nat) (st : RunState)
        (acc : List Nat),
      (run3Aux env tgt fuel page st acc).reason
        ≠ StopReason.SOURCE_STRUCTURE_CHANGED) := by
  refine ⟨?_, ?_, ?_⟩
  · intro store soup h
    have hrows : find_college_rows soup = [] := by
      unfold find_college_rows
      rw [h]
    simp [scrape3, hrows]
  · intro st soup h
    exact scrape_listing_pageT_invalid st soup h
  · intro env tgt fuel page st acc
    exact run3Aux_reason_ne env tgt fuel page st acc

theorem c2_witness :
    scrape3 [rowA] (PageOutcome.ok soupInvalid) = ([rowA], 0) ∧
    (run3Aux envC2 3000 4 1 ⟨[], 0, 0⟩ []).reason
      ≠ StopReason.SOURCE_STRUCTURE_CHANGED :=
  ⟨c2_structural_invalidity_is_empty_page.1 [rowA] soupInvalid (by decide),
   c2_structural_invalidity_is_empty_page.2.2 envC2 3000 4 1 ⟨[], 0, 0⟩ []⟩

/-- C3: the ver4 merge is idempotent.  A candidate whose name key is already
present is skipped (zero accepted, store unchanged); merging any candidate
list twice equals merging it once; and merging one fresh candidate twice
accepts 1 then 0. -/
theorem c3_merge_idempotent :
    (∀ (store : List CollegeRow) (c : CollegeRow),
      (store.any (fun x => x.collegeName == c.collegeName)) = true →
      merge store [c] = (store, 0)) ∧
    (∀ store cands : List CollegeRow,
      merge (merge store cands).1 cands = ((merge store cands).1, 0)) ∧
    (∀ (store : List CollegeRow) (c : CollegeRow), c.collegeName ≠ "" →
      (store.any (fun x => x.collegeName == c.collegeName)) = false →
      merge store [c] = (store ++ [c], 1) ∧
      merge (store ++ [c]) [c] = (store ++ [c], 0)) := by
  refine ⟨?_, ?_, ?_⟩
  · intro store c h
    apply merge_all_present
    intro x hx _
    rcases List.mem_singleton.mp hx with rfl
    exact h
  · intro store cands
    exact merge_merge store cands
  · intro store c hn hab
    constructor
    · have hp : acceptsInto store c := ⟨hn, by rw [hab]; simp⟩
      unfold merge
      rw [newRowsFor_eq_filter]
      rw [show ([c].filter (fun college => decide (acceptsInto store college)))
        = [c] by simp [List.filter_cons, hp]]
      rfl
    · apply merge_all_present
      intro x hx _
      rcases List.mem_singleton.mp hx with rfl
      rw [List.any_append]
      simp

theorem c3_witness :
    merge [rowA] [rowA] = ([rowA], 0) ∧
    merge [] [rowA] = ([rowA], 1) ∧
    merge [rowA] [rowA] = ([rowA], 0) ∧
    merge (merge [] [rowB, rowC]).1 [rowB, rowC] = ((merge [] [rowB, rowC]).1, 0) :=
  ⟨c3_merge_idempotent.1 [rowA] rowA (by decide),
   ((c3_merge_idempotent.2.2 [] rowA (by decide) (by decide)).1 :
      merge [] [rowA] = ([] ++ [rowA], 1)),
   ((c3_merge_idempotent.2.2 [] rowA (by decide) (by decide)).2 :
      merge ([] ++ [rowA]) [rowA] = ([] ++ [rowA], 0)),
   c3_merge_idempotent.2.1 [] [rowB, rowC]⟩

/-- C4 counterexample: the ver4 checkpoint is a single direct write to the
checkpoint path, so a crash that strikes before the write completes does not
always leave the prior checkpoint intact: with a prior checkpoint holding one
record, one of the pre-completion crash states of writing the grown
collection has the checkpoint file corrupt. -/
theorem c4_counterexample :
    fsPrior EXCEL_FILE = FsFile.intact [rowA] ∧
    ¬ (∀ g ∈ (crashResults fsPrior (checkpointOps [rowA, rowB])).dropLast,
        g EXCEL_FILE = FsFile.intact [rowA]) := by
  decide

/-- C4 amended: `checkpoint` replaces the previous checkpoint by one in-place
whole-file write to the checkpoint path — there is no write-to-temp-then-
rename step.  Consequently the observable crash states are exactly: the prior
file untouched (crash before the write starts), the checkpoint file corrupt
(crash mid-write), or the new collection fully written (completion); a crash
mid-write can therefore corrupt the prior durable snapshot. -/
theorem c4_checkpoint_in_place_write (fs : Fs) (store : List CollegeRow) :
    checkpointOps store = [FileOp.write EXCEL_FILE store] ∧
    (crashResults fs (checkpointOps store)).map (fun g => g EXCEL_FILE)
      = [fs EXCEL_FILE, FsFile.corrupt, FsFile.intact store] ∧
    (∀ (src dst : String) (rows : List CollegeRow),
      ¬ FileOp.rename src dst ∈ checkpointOps rows) := by
  refine ⟨rfl, ?_, ?_⟩
  · simp [crashResults, checkpointOps, midOp, applyOp]
  · intro src dst rows h
    rcases List.mem_singleton.mp h with h
    exact FileOp.noConfusion h

theorem c4_witness :
    (crashResults fsPrior (checkpointOps [rowA, rowB])).map (fun g => g EXCEL_FILE)
      = [fsPrior EXCEL_FILE, FsFile.corrupt, FsFile.intact [rowA, rowB]] ∧
    ¬ FileOp.rename "tmp" EXCEL_FILE ∈ checkpointOps [rowA] :=
  ⟨(c4_checkpoint_in_place_write fsPrior [rowA, rowB]).2.1,
   (c4_checkpoint_in_place_write fsPrior [rowA]).2.2 "tmp" EXCEL_FILE [rowA]⟩

/-- C5: loading from a missing checkpoint yields the empty store (not an
error); loading an existing checkpoint reconstructs the collection from the
persisted rows, against which name-based deduplication works; and a page
yielding two previously-checkpointed entities plus one new entity accepts
only the new one (and persists all three). -/
theorem c5_load_and_resume :
    (load none = { colleges_data := [], excelFile := none }) ∧
    (∀ rows : List CollegeRow, (load (some rows)).colleges_data = rows) ∧
    (∀ (rows : List CollegeRow) (c : CollegeRow),
      (rows.any (fun x => x.collegeName == c.collegeName)) = true →
      merge (load (some rows)).colleges_data [c] = (rows, 0)) ∧
    (∀ (soup : Soup) (A B C : CollegeRow),
      (find_college_rows soup).map parse_college_row = [A, B, C] →
      C.collegeName ≠ "" →
      ([A, B].any (fun x => x.collegeName == C.collegeName)) = false →
      scrape_listing_page (load (some [A, B])) (PageOutcome.ok soup)
        = ({ colleges_data := [A, B, C], excelFile := some [A, B, C] }, 1)) := by
  refine ⟨rfl, fun rows => rfl, ?_, ?_⟩
  · intro rows c h
    apply merge_all_present
    intro x hx _
    rcases List.mem_singleton.mp hx with rfl
    exact h
  · intro soup A B C hmap hC hany
    have hA : ¬ acceptsInto [A, B] A := by
      intro hp
      exact hp.2 (by simp)
    have hB : ¬ acceptsInto [A, B] B := by
      intro hp
      exact hp.2 (by simp)
    have hC' : acceptsInto [A, B] C := ⟨hC, by rw [hany]; simp⟩
    have hfilter : newRowsFor [A, B] [A, B, C] = [C] := by
      rw [newRowsFor_eq_filter]
      simp [List.filter_cons, hA, hB, hC']
    simp only [scrape_listing_page, scrape_listing_pageT, load, hmap, hfilter]
    simp

theorem c5_witness :
    scrape_listing_page (load (some [rowA, rowB]))
        (PageOutcome.ok (soupOf ["Alpha", "Beta", "Gamma"]))
      = ({ colleges_data := [rowA, rowB, rowC],
           excelFile := some [rowA, rowB, rowC] }, 1) :=
  c5_load_and_resume.2.2.2 (soupOf ["Alpha", "Beta", "Gamma"]) rowA rowB rowC
    (by decide) (by decide) (by decide)

/-- C6: the ver3 / `scraping.py` loop stops via the expected-total break
exactly at the end of the first page on which the session total reaches the
target (the final page's count `c` brings the sum to the target while the
previous total was below it, or it was the very first page); acceptance is
whole-page granular — the store grows by the full per-page sums, never
truncated to the target — and in the spec's example (target 5, three fresh
entities per page) the run stops on page 2 with 6 entities stored. -/
theorem c6_target_reached (env : Nat → PageOutcome)
    (tgt start_page max_pages : Nat) (store0 : List CollegeRow) :
    ((run3 env tgt start_page max_pages store0).reason = StopReason.TARGET_REACHED
      ↔ ∃ c r, (run3 env tgt start_page max_pages store0).rev = c :: r ∧
          tgt ≤ c + r.sum ∧ (r = [] ∨ r.sum < tgt)) ∧
    ((run3 env tgt start_page max_pages store0).state.store.length
      = store0.length + (run3 env tgt start_page max_pages store0).rev.sum) ∧
    ((run3 envTarget 5 1 10 []).reason = StopReason.TARGET_REACHED ∧
      (run3 envTarget 5 1 10 []).rev = [3, 3] ∧
      (run3 envTarget 5 1 10 []).state.store.length = 6) := by
  have h := run3Aux_char env tgt max_pages start_page ⟨store0, 0, 0⟩ [] store0.length
    rfl (show (0 : Nat) < 3 by omega) rfl (Or.inl rfl) rfl
  exact ⟨h.2.2.2, h.2.1, by decide⟩

/-- C7: the ver4 durable result is write-through.  Every page iteration that
accepts at least one entity writes the full current collection to the
checkpoint before returning control to the loop; a page accepting zero
entities leaves collection and checkpoint both unchanged; hence along any run
the checkpoint content always equals the in-memory collection, so a crash
between iterations loses nothing from completed pages. -/
theorem c7_write_through_checkpoint :
    (∀ (st : ScrapeState) (f : PageOutcome),
      (0 < (scrape_listing_page st f).2 →
        (scrape_listing_page st f).1.excelFile
          = some (scrape_listing_page st f).1.colleges_data) ∧
      ((scrape_listing_page st f).2 = 0 → (scrape_listing_page st f).1 = st)) ∧
    (∀ (env : Nat → PageOutcome) (fuel page : Nat) (st : ScrapeState)
        (empty total : Nat),
      st.excelFile.getD [] = st.colleges_data →
      (run4Aux env fuel page st empty total).state.excelFile.getD []
        = (run4Aux env fuel page st empty total).state.colleges_data) := by
  constructor
  · intro st f
    exact ⟨scrape_listing_page_pos st f, scrape_listing_page_count_zero st f⟩
  · intro env fuel page st empty total h
    exact run4Aux_inv env (fun s => s.excelFile.getD [] = s.colleges_data)
      scrape_listing_page_checkpoint_inv fuel page st empty total h

theorem c7_witness :
    (scrape_listing_page (load none)
        (PageOutcome.ok (soupOf ["Alpha"]))).1.excelFile
      = some (scrape_listing_page (load none)
          (PageOutcome.ok (soupOf ["Alpha"]))).1.colleges_data ∧
    (run4Aux envTarget 3 1 (load (some [rowA])) 0 0).state.excelFile.getD []
      = (run4Aux envTarget 3 1 (load (some [rowA])) 0 0).state.colleges_data :=
  ⟨(c7_write_through_checkpoint.1 (load none)
      (PageOutcome.ok (soupOf ["Alpha"]))).1 (by decide),
   c7_write_through_checkpoint.2 envTarget 3 1 (load (some [rowA])) 0 0 (by decide)⟩

/-- C8: an entity with an empty name key is never accepted.  Every candidate
accepted by the ver4 loop has a non-empty name; one page step and any number
of run iterations preserve all-names-non-empty of the collection (in both the
ver4 and the ver3 / `scraping.py` variants); and the per-page count counts
exactly the parsed candidates passing the non-empty-name filter. -/
theorem c8_nonempty_name_invariant :
    (∀ (store cands : List CollegeRow) (r : CollegeRow),
      r ∈ newRowsFor store cands → r.collegeName ≠ "") ∧
    (∀ (st : ScrapeState) (f : PageOutcome),
      (∀ x ∈ st.colleges_data, x.collegeName ≠ "") →
      ∀ x ∈ (scrape_listing_page st f).1.colleges_data, x.collegeName ≠ "") ∧
    (∀ (env : Nat → PageOutcome) (fuel page : Nat) (st : ScrapeState)
        (empty total : Nat),
      (∀ x ∈ st.colleges_data, x.collegeName ≠ "") →
      ∀ x ∈ (run4Aux env fuel page st empty total).state.colleges_data,
        x.collegeName ≠ "") ∧
    (∀ (store : List CollegeRow) (o : PageOutcome),
      (∀ x ∈ store, x.collegeName ≠ "") →
      ∀ x ∈ (scrape3 store o).1, x.collegeName ≠ "") ∧
    (∀ (store : List CollegeRow) (soup : Soup),
      (scrape3 store (PageOutcome.ok soup)).2
        = (((find_college_rows soup).map parse_college_row).filter
            (fun c => decide (c.collegeName ≠ ""))).length) := by
  refine ⟨?_, ?_, ?_, ?_, ?_⟩
  · intro store cands r h
    exact mem_newRowsFor_name store cands r h
  · intro st f h
    exact scrape_listing_page_names st f h
  · intro env fuel page st empty total h
    exact run4Aux_inv env (fun s => ∀ x ∈ s.colleges_data, x.collegeName ≠ "")
      scrape_listing_page_names fuel page st empty total h
  · intro store o h
    exact scrape3_names store o h
  · intro store soup
    rw [scrape3_ok]

theorem c8_witness : rowA.collegeName ≠ "" :=
  c8_nonempty_name_invariant.1 [] [rowA] rowA (by decide)

/-- C9: a transient fetch failure is handled identically to an empty page: it
contributes `(state, 0)` just like a structurally empty page, toward the same
counter, and the parser is not reached (the invocation log is empty on a
failed fetch, in contrast to the singleton log of a successful one); the ver4
loop and the stage1 stream loop fetch page indices forming a contiguous range
— each non-terminating iteration advances the index by exactly one, so the
fetched indices are strictly increasing and no index is ever re-fetched. -/
theorem c9_monotone_pages :
    (∀ st : ScrapeState,
      scrape_listing_pageT st PageOutcome.failed = (st, 0, [])) ∧
    (∀ (st : ScrapeState) (soup : Soup), find_listing_table soup = none →
      scrape_listing_pageT st (PageOutcome.ok soup) = (st, 0, [soup])) ∧
    (∀ (env : Nat → PageOutcome) (fuel page : Nat) (st : ScrapeState)
        (empty total : Nat),
      ∃ n, (run4Aux env fuel page st empty total).pages = List.range' page n ∧
        List.Chain' (fun a b => b = a + 1)
          (run4Aux env fuel page st empty total).pages ∧
        List.Pairwise (· < ·) (run4Aux env fuel page st empty total).pages) ∧
    (∀ (stream base : String) (coll : List Stage1Row) (empty : Nat),
      stage1Update stream base coll empty none
        = stage1Update stream base coll empty (some [])) ∧
    (∀ (env : Nat → Option (List String)) (stream base : String)
        (fuel page : Nat) (coll : List Stage1Row) (empty : Nat),
      ∃ n, (stage1Aux env stream base fuel page coll empty).2.1
          = List.range' page n ∧
        List.Pairwise (· < ·) (stage1Aux env stream base fuel page coll empty).2.1) := by
  refine ⟨fun st => rfl, ?_, ?_, ?_, ?_⟩
  · intro st soup h
    exact scrape_listing_pageT_invalid st soup h
  · intro env fuel page st empty total
    obtain ⟨n, hn⟩ := run4Aux_pages env fuel page st empty total
    exact ⟨n, hn, by rw [hn]; exact range'_chain n page,
      by rw [hn]; exact range'_pairwise n page⟩
  · intro stream base coll empty
    rfl
  · intro env stream base fuel page coll empty
    obtain ⟨n, hn⟩ := stage1Aux_pages env stream base fuel page coll empty
    exact ⟨n, hn, by rw [hn]; exact range'_pairwise n page⟩

theorem c9_witness :
    scrape_listing_pageT (load none) (PageOutcome.ok soupInvalid)
      = (load none, 0, [soupInvalid]) :=
  c9_monotone_pages.2.1 (load none) soupInvalid (by decide)

/-- C10: row parsing is total and shape-stable.  Both parser variants are
total functions into the fixed eight-string-field record `CollegeRow`; on any
row with fewer than two top-level cells they return the all-empty record,
whose name is the empty string, so such a row is never accepted. -/
theorem c10_parse_row_total_shape :
    (∀ tr : Tr, tr.tds.length < 2 → parse_college_row tr = emptyRow) ∧
    (∀ tr : TrV2, tr.tds.length < 2 → parse_college_row_v2 tr = emptyRow) ∧
    (emptyRow.collegeName = "") ∧
    (∀ (store : List CollegeRow) (tr : Tr), tr.tds.length < 2 →
      newRowsFor store [parse_college_row tr] = []) := by
  refine ⟨?_, ?_, rfl, ?_⟩
  · intro tr h
    unfold parse_college_row
    rw [if_pos h]
  · intro tr h
    unfold parse_college_row_v2
    rw [if_pos h]
  · intro store tr h
    have hp : parse_college_row tr = emptyRow := by
      unfold parse_college_row
      rw [if_pos h]
    rw [hp, newRowsFor_eq_filter]
    have hr : ¬ acceptsInto store emptyRow := fun hacc => hacc.1 rfl
    simp [List.filter_cons, hr]

theorem c10_witness :
    parse_college_row trOneCell = emptyRow ∧
    parse_college_row_v2 trOneCellV2 = emptyRow ∧
    newRowsFor [rowA] [parse_college_row trOneCell] = [] :=
  ⟨c10_parse_row_total_shape.1 trOneCell (by decide),
   c10_parse_row_total_shape.2.1 trOneCellV2 (by decide),
   c10_parse_row_total_shape.2.2.2 [rowA] trOneCell (by decide)⟩
